import Mathlib

/-!
Verification of the "Quantum AI Supercore" signal-ensemble engine
(`predictionLogic.js`, v44.3.0).

The development is a shallow embedding of the JavaScript source into Lean:

* JavaScript numbers are modelled as rationals (`ℚ`); the properties proved
  here are order/clamping facts that are insensitive to the float/rational
  distinction at the constants involved.
* `Math.sqrt` and `Math.log2` are irrational-valued primitives; the embedding
  is parameterised over functions `sqrtFn log2Fn : ℚ → ℚ` together with the
  elementary facts about them that each theorem needs (nonnegativity,
  monotone upper bounds, specific exact values such as `log2 (1/2) = -1`).
* Fallible JavaScript values (`undefined`, `null`, NaN-parsing inputs) are
  modelled by the inductive `JSVal`; functions that can receive them return
  `Option` results exactly where the source returns `null`.
* Module-level mutable state (`signalPerformance`, `driftDetector`, the
  shared stats payload) is modelled by explicit state passing: every
  mutating function returns the new state.
-/

namespace Spec2Proof

/-- JavaScript-like values as they reach `getBigSmallFromNumber` and the
history-record fields: `undefined`, `null`, an integer-valued number, or a
value whose integer parse is NaN. -/
inductive JSVal where
  | undef : JSVal
  | null : JSVal
  | int : ℤ → JSVal
  | nan : JSVal
deriving DecidableEq

/-- JavaScript truthiness of a `JSVal` (`undefined`, `null`, `0` and NaN are
falsy). -/
def jsTruthy : JSVal → Bool
  | .undef => false
  | .null => false
  | .nan => false
  | .int n => n != 0

/-- JavaScript `a || b` on `JSVal`s. -/
def jsOr (a b : JSVal) : JSVal := if jsTruthy a then a else b

/-- Result of JavaScript `parseInt` on a `JSVal`. -/
inductive ParsedNum where
  | nan : ParsedNum
  | val : ℤ → ParsedNum
deriving DecidableEq

/-- `parseInt` as applied to a `JSVal`: an integer-valued number parses to
itself, everything else to NaN. -/
def parseIntJS : JSVal → ParsedNum
  | .int n => .val n
  | _ => .nan

/-- `getBigSmallFromNumber` (predictionLogic.js lines 50-55): `undefined` and
`null` yield `null`; a NaN parse yields `null`; otherwise 0-4 is "SMALL",
5-9 is "BIG", and anything else is `null`. -/
def getBigSmallFromNumber : JSVal → Option String
  | .undef => none
  | .null => none
  | .nan => none
  | .int n =>
      if 0 ≤ n ∧ n ≤ 4 then some "SMALL"
      else if 5 ≤ n ∧ n ≤ 9 then some "BIG"
      else none

/-- `calculateSMA` (lines 72-77): mean of the first `period` elements;
`null` when the data is short or the period nonpositive. -/
def calculateSMA (data : List ℚ) (period : ℤ) : Option ℚ :=
  if (data.length : ℤ) < period ∨ period ≤ 0 then none
  else
    let relevantData := data.take period.toNat
    some (relevantData.sum / (period : ℚ))

/-- One smoothing step of the EMA recurrence `ema = x*k + ema*(1-k)`. -/
def emaStep (k ema x : ℚ) : ℚ := x * k + ema * (1 - k)

/-- `calculateEMA` (lines 85-103): seed with the SMA of the oldest `period`
elements (falling back to a plain average if that SMA were `null`), then
fold the smoothing step over the remaining chronological elements. -/
def calculateEMA (data : List ℚ) (period : ℤ) : Option ℚ :=
  if (data.length : ℤ) < period ∨ period ≤ 0 then none
  else
    let k : ℚ := 2 / ((period : ℚ) + 1)
    let chronologicalData := data.reverse
    let initialSliceForSma := chronologicalData.take period.toNat
    if (initialSliceForSma.length : ℤ) < period then none
    else
      let seed : Option ℚ :=
        match calculateSMA initialSliceForSma.reverse period with
        | some e => some e
        | none =>
            if 0 < initialSliceForSma.length then
              some (initialSliceForSma.sum / (initialSliceForSma.length : ℚ))
            else none
      match seed with
      | none => none
      | some e => some ((chronologicalData.drop period.toNat).foldl (emaStep k) e)

/-- Claim C8: for integers 0-9, `getBigSmallFromNumber` answers "SMALL"
exactly for n ≤ 4 and "BIG" exactly for n ≥ 5; `undefined`, `null` and
NaN-parsing inputs all yield `null`. -/
theorem C8_classification_partition (n : ℤ) (h0 : 0 ≤ n) (h9 : n ≤ 9) :
    (getBigSmallFromNumber (.int n) = some "SMALL" ↔ n ≤ 4) ∧
    (getBigSmallFromNumber (.int n) = some "BIG" ↔ 5 ≤ n) ∧
    getBigSmallFromNumber .undef = none ∧
    getBigSmallFromNumber .null = none ∧
    getBigSmallFromNumber .nan = none := by
  refine ⟨?_, ?_, rfl, rfl, rfl⟩ <;>
      simp only [getBigSmallFromNumber] <;> constructor <;> intro h <;>
    first
      | (split_ifs at h with ha hb <;> simp_all)
      | (rw [if_pos (show 0 ≤ n ∧ n ≤ 4 from ⟨h0, h⟩)])
      | (rw [if_neg (show ¬ (0 ≤ n ∧ n ≤ 4) by omega), if_pos ⟨h, h9⟩])

theorem C8_witness :
    (0 ≤ (3 : ℤ) ∧ (3 : ℤ) ≤ 9) ∧
    ((getBigSmallFromNumber (.int 3) = some "SMALL" ↔ (3 : ℤ) ≤ 4) ∧
      (getBigSmallFromNumber (.int 3) = some "BIG" ↔ 5 ≤ (3 : ℤ)) ∧
      getBigSmallFromNumber .undef = none ∧
      getBigSmallFromNumber .null = none ∧
      getBigSmallFromNumber .nan = none) :=
  ⟨by decide, C8_classification_partition 3 (by decide) (by decide)⟩

/-- Claim C7: on data of length exactly `period` (with `period ≥ 1`),
`calculateEMA` coincides with `calculateSMA`: the EMA seed is the SMA of
those same points and no smoothing iterations apply. -/
theorem C7_ema_sma_seed_equivalence (data : List ℚ) (period : ℤ)
    (h1 : 1 ≤ period) (h2 : (data.length : ℤ) = period) :
    calculateEMA data period = calculateSMA data period := by
  have hguard : ¬ ((data.length : ℤ) < period ∨ period ≤ 0) := by omega
  have hpn : period.toNat = data.length := by omega
  have htake : data.reverse.take period.toNat = data.reverse := by
    rw [hpn, ← List.length_reverse, List.take_length]
  have hdrop : data.reverse.drop period.toNat = [] := by
    rw [hpn, ← List.length_reverse, List.drop_length]
  have hSMA : calculateSMA data period =
      some ((data.take period.toNat).sum / (period : ℚ)) := by
    unfold calculateSMA
    rw [if_neg hguard]
  unfold calculateEMA
  rw [if_neg hguard]
  simp only [htake, hdrop, List.reverse_reverse, List.length_reverse, hSMA,
    List.foldl_nil]
  rw [if_neg (show ¬ ((data.length : ℤ) < period) by omega)]

theorem C7_witness :
    (1 ≤ (3 : ℤ) ∧ (([1, 2, 3] : List ℚ).length : ℤ) = 3) ∧
    calculateEMA [1, 2, 3] 3 = calculateSMA [1, 2, 3] 3 :=
  ⟨by decide, C7_ema_sma_seed_equivalence [1, 2, 3] 3 (by decide) (by decide)⟩

/-! ### Performance tracker (predictionLogic.js lines 1368-1550)

`signalPerformance` is a module-level map from source name to a mutable
record; the embedding models one record explicitly and every mutation as a
state-passing function. -/

/-- JavaScript substring test `s.includes(pat)` for a nonempty pattern. -/
def strContains (s pat : String) : Bool := (s.splitOn pat).length != 1

/-- One bucket of `performanceByVolatility`. -/
structure VolPerf where
  correct : ℕ
  total : ℕ
deriving DecidableEq

/-- One entry of the `signalPerformance` map (lines 1398-1404 and 1474-1481
give the initial shape).  Numeric factors are rationals; period ids are
integers (`Date.now()` timestamps); `null` period fields are `none`. -/
structure SignalPerf where
  correct : ℕ
  total : ℕ
  recentAccuracy : List ℚ
  sessionCorrect : ℕ
  sessionTotal : ℕ
  lastUpdatePeriod : Option ℤ
  lastActivePeriod : Option ℤ
  currentAdjustmentFactor : ℚ
  alphaFactor : ℚ
  longTermImportanceScore : ℚ
  performanceByVolatility : List (String × VolPerf)
  isOnProbation : Bool
deriving DecidableEq

/-- The neutral initial record created on first sighting of a source. -/
def initSignalPerf : SignalPerf :=
  { correct := 0, total := 0, recentAccuracy := [], sessionCorrect := 0,
    sessionTotal := 0, lastUpdatePeriod := none, lastActivePeriod := none,
    currentAdjustmentFactor := 1, alphaFactor := 1,
    longTermImportanceScore := 1/2, performanceByVolatility := [],
    isOnProbation := false }

def PERFORMANCE_WINDOW : ℕ := 30
def MIN_OBSERVATIONS_FOR_ADJUST : ℕ := 10
def MAX_WEIGHT_FACTOR : ℚ := 39/20
def MIN_WEIGHT_FACTOR : ℚ := 1/20
def MAX_ALPHA_FACTOR : ℚ := 8/5
def MIN_ALPHA_FACTOR : ℚ := 2/5
def MIN_ABSOLUTE_WEIGHT : ℚ := 3/10000
def INACTIVITY_PERIOD_FOR_DECAY : ℤ := 90
def DECAY_RATE : ℚ := 1/40
def ALPHA_UPDATE_RATE : ℚ := 1/25
def PROBATION_THRESHOLD_ACCURACY : ℚ := 2/5
def PROBATION_MIN_OBSERVATIONS : ℕ := 15
def PROBATION_WEIGHT_CAP : ℚ := 1/10

/-- `Math.min(Math.max(x, MIN_WEIGHT_FACTOR), MAX_WEIGHT_FACTOR)`
(line 1525). -/
def clampWeightFactor (x : ℚ) : ℚ := min (max x MIN_WEIGHT_FACTOR) MAX_WEIGHT_FACTOR

/-- The asymmetric move of `alphaFactor` toward `newF` (lines 1540-1544). -/
def alphaToward (alpha newF rate : ℚ) : ℚ :=
  if alpha < newF then min MAX_ALPHA_FACTOR (alpha + rate * (newF - alpha))
  else max MIN_ALPHA_FACTOR (alpha - rate * (alpha - newF))

/-- The inactivity relaxation of `currentAdjustmentFactor` toward 1.0
(lines 1417-1418). -/
def decayedFactor (c : ℚ) : ℚ :=
  if 1 < c then max 1 (c - DECAY_RATE)
  else if c < 1 then min 1 (c + DECAY_RATE) else c

/-- Ensure `performanceByVolatility[vol]` exists (lines 1484-1486). -/
def ensureVolBucket (r : SignalPerf) (vol : String) : SignalPerf :=
  match r.performanceByVolatility.lookup vol with
  | some _ => r
  | none => { r with performanceByVolatility :=
      r.performanceByVolatility ++ [(vol, ⟨0, 0⟩)] }

/-- Increment the totals of the bucket for `vol` (lines 1492, 1497). -/
def bumpVol (l : List (String × VolPerf)) (vol : String) (isCorrect : Bool) :
    List (String × VolPerf) :=
  l.map (fun p =>
    if p.1 = vol then
      (p.1, ⟨p.2.correct + (if isCorrect then 1 else 0), p.2.total + 1⟩)
    else p)

/-- The adjustment-factor / probation / alpha-factor block of
`updateSignalPerformance` (lines 1519-1545), run once the record has enough
observations.  The three sequential mutations touch disjoint fields, so they
are rendered as one record update. -/
def adjustStats (r : SignalPerf) : SignalPerf :=
  if MIN_OBSERVATIONS_FOR_ADJUST ≤ r.total ∧
      PERFORMANCE_WINDOW / 2 ≤ r.recentAccuracy.length then
    let accuracy := r.recentAccuracy.sum / (r.recentAccuracy.length : ℚ)
    let newAdjustmentFactor := clampWeightFactor (1 + (accuracy - 1/2) * (7/2))
    let alphaLearningRate := ALPHA_UPDATE_RATE *
      (if accuracy < 7/20 then 7/4 else if accuracy < 9/20 then 7/5 else 1)
    { r with
      currentAdjustmentFactor := newAdjustmentFactor,
      isOnProbation :=
        if PROBATION_MIN_OBSERVATIONS ≤ r.recentAccuracy.length ∧
            accuracy < PROBATION_THRESHOLD_ACCURACY then true
        else if PROBATION_THRESHOLD_ACCURACY + 3/20 < accuracy then false
        else r.isOnProbation,
      alphaFactor := alphaToward r.alphaFactor newAdjustmentFactor alphaLearningRate }
  else r

/-- The outcome-recording step of `updateSignalPerformance`
(lines 1489-1517): bump the counters and the volatility bucket, move the
importance score, and push the 0/1 outcome into the `recentAccuracy` FIFO
(capacity `PERFORMANCE_WINDOW`). -/
def pushedRecord (r : SignalPerf) (signalPrediction actualOutcome vol : String)
    (isHighConfidencePrediction isOverallCorrect concentrationModeActive : Bool)
    (marketEntropyState : String) : SignalPerf :=
  let outcomeCorrect : Bool := signalPrediction == actualOutcome
  let importanceDelta0 : ℚ :=
    if outcomeCorrect then (if isHighConfidencePrediction then 1/40 else 1/100)
    else (if isHighConfidencePrediction && !isOverallCorrect then -(1/25) else -(3/200))
  let importanceDelta : ℚ :=
    if concentrationModeActive || strContains marketEntropyState "CHAOS" then
      importanceDelta0 * (3/2)
    else importanceDelta0
  let ra0 := r.recentAccuracy ++ [if outcomeCorrect then (1 : ℚ) else 0]
  let ra := if PERFORMANCE_WINDOW < ra0.length then ra0.tail else ra0
  { r with
    total := r.total + 1,
    sessionTotal := r.sessionTotal + 1,
    correct := r.correct + (if outcomeCorrect then 1 else 0),
    sessionCorrect := r.sessionCorrect + (if outcomeCorrect then 1 else 0),
    performanceByVolatility := bumpVol r.performanceByVolatility vol outcomeCorrect,
    longTermImportanceScore :=
      min 1 (max 0 (r.longTermImportanceScore + importanceDelta)),
    recentAccuracy := ra }

/-- The per-signal body of `updateSignalPerformance` (lines 1471-1549): lazily
create the record, ensure the volatility bucket, then — once per distinct
period — push the outcome and run `adjustStats`. -/
def updateOneSignal (r0 : Option SignalPerf) (signalPrediction actualOutcome : String)
    (periodFull : ℤ) (vol : String)
    (isHighConfidencePrediction isOverallCorrect concentrationModeActive : Bool)
    (marketEntropyState : String) : SignalPerf :=
  let r := ensureVolBucket (r0.getD initSignalPerf) vol
  let rG :=
    if r.lastActivePeriod ≠ some periodFull ∨ r.total = 0 then
      { adjustStats (pushedRecord r signalPrediction actualOutcome vol
          isHighConfidencePrediction isOverallCorrect concentrationModeActive
          marketEntropyState) with
        lastActivePeriod := some periodFull }
    else r
  { rG with lastUpdatePeriod := some periodFull }

/-- Result of `getDynamicWeightAdjustment`: the adjusted weight together with
the record state after the call's in-place mutations. -/
structure AdjustResult where
  weight : ℚ
  record : SignalPerf
deriving DecidableEq

/-- `getDynamicWeightAdjustment` (lines 1395-1453).  A missing record is
created at neutral and `max(baseWeight, MIN_ABSOLUTE_WEIGHT)` returned;
otherwise session stats may reset, inactivity decay may relax the factor and
clear probation, and the combined factor (probation-capped if applicable)
scales the base weight, floored at `MIN_ABSOLUTE_WEIGHT`. -/
def getDynamicWeightAdjustment (r0 : Option SignalPerf) (baseWeight : ℚ)
    (currentPeriodFull : ℤ) (currentVolatilityRegime : String)
    (sessionHistoryLength : ℕ) : AdjustResult :=
  match r0 with
  | none => ⟨max baseWeight MIN_ABSOLUTE_WEIGHT, initSignalPerf⟩
  | some perf0 =>
    let perf1 :=
      if sessionHistoryLength ≤ 1 then
        { perf0 with sessionCorrect := 0, sessionTotal := 0 }
      else perf0
    let perf2 :=
      if perf1.lastUpdatePeriod ≠ some currentPeriodFull then
        let decayed :=
          match perf1.lastActivePeriod with
          | some lap =>
              if INACTIVITY_PERIOD_FOR_DECAY < currentPeriodFull - lap then
                { perf1 with
                  currentAdjustmentFactor := decayedFactor perf1.currentAdjustmentFactor,
                  isOnProbation := false }
              else perf1
          | none => perf1
        { decayed with lastUpdatePeriod := some currentPeriodFull }
      else perf1
    let volatilitySpecificAdjustment : ℚ :=
      match perf2.performanceByVolatility.lookup currentVolatilityRegime with
      | some volPerf =>
          if 5 ≤ volPerf.total then
            let volAccuracy := (volPerf.correct : ℚ) / (volPerf.total : ℚ)
            min (max (1 + (volAccuracy - 1/2) * (13/10)) (11/20)) (29/20)
          else 1
      | none => 1
    let sessionAdjustmentFactor : ℚ :=
      if 3 ≤ perf2.sessionTotal then
        let sessionAccuracy := (perf2.sessionCorrect : ℚ) / (perf2.sessionTotal : ℚ)
        min (max (1 + (sessionAccuracy - 1/2) * (3/2)) (3/5)) (7/5)
      else 1
    let f0 := perf2.currentAdjustmentFactor * perf2.alphaFactor *
      volatilitySpecificAdjustment * sessionAdjustmentFactor *
      (7/10 + perf2.longTermImportanceScore * (3/5))
    let finalAdjustmentFactor :=
      if perf2.isOnProbation then min f0 PROBATION_WEIGHT_CAP else f0
    ⟨max (baseWeight * finalAdjustmentFactor) MIN_ABSOLUTE_WEIGHT, perf2⟩

/-- An arbitrary interleaving of tracker calls touching one record. -/
inductive EngineOp where
  | update (signalPrediction actualOutcome : String) (periodFull : ℤ) (vol : String)
      (isHighConfidencePrediction isOverallCorrect concentrationModeActive : Bool)
      (marketEntropyState : String) : EngineOp
  | adjust (baseWeight : ℚ) (currentPeriodFull : ℤ) (currentVolatilityRegime : String)
      (sessionHistoryLength : ℕ) : EngineOp

/-- Apply one tracker call to a record. -/
def applyEngineOp (r : SignalPerf) : EngineOp → SignalPerf
  | .update sp ao pf v hc oc cm es => updateOneSignal (some r) sp ao pf v hc oc cm es
  | .adjust bw pf v shl => (getDynamicWeightAdjustment (some r) bw pf v shl).record

/-- Run a sequence of tracker calls from the neutral initial record. -/
def runEngineOps (ops : List EngineOp) : SignalPerf :=
  ops.foldl applyEngineOp initSignalPerf

/-- The P4 bounds on the two multiplicative factors. -/
def factorBoundsInv (r : SignalPerf) : Prop :=
  MIN_WEIGHT_FACTOR ≤ r.currentAdjustmentFactor ∧
  r.currentAdjustmentFactor ≤ MAX_WEIGHT_FACTOR ∧
  MIN_ALPHA_FACTOR ≤ r.alphaFactor ∧ r.alphaFactor ≤ MAX_ALPHA_FACTOR

theorem clampWeightFactor_mem (x : ℚ) :
    MIN_WEIGHT_FACTOR ≤ clampWeightFactor x ∧ clampWeightFactor x ≤ MAX_WEIGHT_FACTOR := by
  unfold clampWeightFactor
  refine ⟨le_min (le_max_right _ _) ?_, min_le_right _ _⟩
  unfold MIN_WEIGHT_FACTOR MAX_WEIGHT_FACTOR
  norm_num

theorem alphaToward_mem (alpha newF rate : ℚ) (hr : 0 ≤ rate)
    (h1 : MIN_ALPHA_FACTOR ≤ alpha) (h2 : alpha ≤ MAX_ALPHA_FACTOR) :
    MIN_ALPHA_FACTOR ≤ alphaToward alpha newF rate ∧
    alphaToward alpha newF rate ≤ MAX_ALPHA_FACTOR := by
  have hb : MIN_ALPHA_FACTOR ≤ MAX_ALPHA_FACTOR := by
    unfold MIN_ALPHA_FACTOR MAX_ALPHA_FACTOR; norm_num
  unfold alphaToward
  split
  · rename_i hlt
    have hstep : 0 ≤ rate * (newF - alpha) := mul_nonneg hr (by linarith)
    exact ⟨le_min hb (by linarith), min_le_left _ _⟩
  · rename_i hge
    have hstep : 0 ≤ rate * (alpha - newF) := mul_nonneg hr (by linarith [le_of_not_lt hge])
    exact ⟨le_max_left _ _, max_le hb (by linarith)⟩

theorem decayedFactor_mem (c : ℚ) (h1 : MIN_WEIGHT_FACTOR ≤ c)
    (h2 : c ≤ MAX_WEIGHT_FACTOR) :
    MIN_WEIGHT_FACTOR ≤ decayedFactor c ∧ decayedFactor c ≤ MAX_WEIGHT_FACTOR := by
  unfold decayedFactor DECAY_RATE
  simp only [MIN_WEIGHT_FACTOR, MAX_WEIGHT_FACTOR] at h1 h2 ⊢
  split
  · constructor
    · calc (1/20 : ℚ) ≤ 1 := by norm_num
        _ ≤ max 1 (c - 1/40) := le_max_left _ _
    · exact max_le (by norm_num) (by linarith)
  · split
    · constructor
      · exact le_min (by norm_num) (by linarith)
      · calc min 1 (c + 1/40) ≤ 1 := min_le_left _ _
          _ ≤ 39/20 := by norm_num
    · exact ⟨h1, h2⟩

theorem adjustStats_inv (r : SignalPerf) (h : factorBoundsInv r) :
    factorBoundsInv (adjustStats r) := by
  obtain ⟨h1, h2, h3, h4⟩ := h
  unfold adjustStats
  split
  · dsimp only
    have hc := clampWeightFactor_mem
      (1 + (r.recentAccuracy.sum / (r.recentAccuracy.length : ℚ) - 1/2) * (7/2))
    have hrate : (0 : ℚ) ≤ ALPHA_UPDATE_RATE *
        (if r.recentAccuracy.sum / (r.recentAccuracy.length : ℚ) < 7/20 then (7/4 : ℚ)
         else if r.recentAccuracy.sum / (r.recentAccuracy.length : ℚ) < 9/20 then 7/5
         else 1) := by
      unfold ALPHA_UPDATE_RATE
      split
      · norm_num
      · split <;> norm_num
    have ha := alphaToward_mem r.alphaFactor
      (clampWeightFactor (1 + (r.recentAccuracy.sum / (r.recentAccuracy.length : ℚ) - 1/2) * (7/2)))
      _ hrate h3 h4
    exact ⟨hc.1, hc.2, ha.1, ha.2⟩
  · exact ⟨h1, h2, h3, h4⟩

theorem ensureVolBucket_inv (r : SignalPerf) (v : String) (h : factorBoundsInv r) :
    factorBoundsInv (ensureVolBucket r v) := by
  unfold ensureVolBucket
  split
  · exact h
  · exact h

theorem updateOneSignal_inv (r : SignalPerf) (h : factorBoundsInv r)
    (sp ao : String) (pf : ℤ) (v : String) (hc oc cm : Bool) (es : String) :
    factorBoundsInv (updateOneSignal (some r) sp ao pf v hc oc cm es) := by
  have hE := ensureVolBucket_inv r v h
  unfold updateOneSignal
  dsimp only
  split
  · exact adjustStats_inv _ hE
  · exact hE

theorem getDynamicWeightAdjustment_inv (r : SignalPerf) (h : factorBoundsInv r)
    (bw : ℚ) (pf : ℤ) (v : String) (shl : ℕ) :
    factorBoundsInv (getDynamicWeightAdjustment (some r) bw pf v shl).record := by
  obtain ⟨h1, h2, h3, h4⟩ := h
  unfold getDynamicWeightAdjustment
  dsimp only
  split
  all_goals
    split
    · split
      · split
        · exact ⟨(decayedFactor_mem _ h1 h2).1, (decayedFactor_mem _ h1 h2).2, h3, h4⟩
        · exact ⟨h1, h2, h3, h4⟩
      · exact ⟨h1, h2, h3, h4⟩
    · exact ⟨h1, h2, h3, h4⟩

theorem applyEngineOp_inv (r : SignalPerf) (h : factorBoundsInv r) (op : EngineOp) :
    factorBoundsInv (applyEngineOp r op) := by
  cases op with
  | update sp ao pf v hc oc cm es => exact updateOneSignal_inv r h sp ao pf v hc oc cm es
  | adjust bw pf v shl => exact getDynamicWeightAdjustment_inv r h bw pf v shl

theorem foldl_engineOps_inv (ops : List EngineOp) :
    ∀ r : SignalPerf, factorBoundsInv r → factorBoundsInv (ops.foldl applyEngineOp r) := by
  induction ops with
  | nil => exact fun r h => h
  | cons op rest ih => exact fun r h => ih _ (applyEngineOp_inv r h op)

theorem initSignalPerf_inv : factorBoundsInv initSignalPerf := by
  refine ⟨?_, ?_, ?_, ?_⟩ <;>
    norm_num [initSignalPerf, MIN_WEIGHT_FACTOR, MAX_WEIGHT_FACTOR,
      MIN_ALPHA_FACTOR, MAX_ALPHA_FACTOR]

/-- Claim C1: starting from the neutral initialization
(`currentAdjustmentFactor = alphaFactor = 1.0`), after any sequence of
`updateSignalPerformance` and `getDynamicWeightAdjustment` calls with any
accuracy/outcome sequence, `currentAdjustmentFactor` stays in
`[MIN_WEIGHT_FACTOR, MAX_WEIGHT_FACTOR] = [0.05, 1.95]` and `alphaFactor`
stays in `[MIN_ALPHA_FACTOR, MAX_ALPHA_FACTOR] = [0.4, 1.6]`. -/
theorem C1_performance_factor_bounds (ops : List EngineOp) :
    MIN_WEIGHT_FACTOR ≤ (runEngineOps ops).currentAdjustmentFactor ∧
    (runEngineOps ops).currentAdjustmentFactor ≤ MAX_WEIGHT_FACTOR ∧
    MIN_ALPHA_FACTOR ≤ (runEngineOps ops).alphaFactor ∧
    (runEngineOps ops).alphaFactor ≤ MAX_ALPHA_FACTOR :=
  foldl_engineOps_inv ops initSignalPerf initSignalPerf_inv

theorem ensureVolBucket_total (r : SignalPerf) (v : String) :
    (ensureVolBucket r v).total = r.total := by
  unfold ensureVolBucket; split <;> rfl

theorem ensureVolBucket_recentAccuracy (r : SignalPerf) (v : String) :
    (ensureVolBucket r v).recentAccuracy = r.recentAccuracy := by
  unfold ensureVolBucket; split <;> rfl

theorem ensureVolBucket_lastActivePeriod (r : SignalPerf) (v : String) :
    (ensureVolBucket r v).lastActivePeriod = r.lastActivePeriod := by
  unfold ensureVolBucket; split <;> rfl

theorem adjustStats_recentAccuracy (r : SignalPerf) :
    (adjustStats r).recentAccuracy = r.recentAccuracy := by
  unfold adjustStats; split <;> rfl

theorem adjustStats_total (r : SignalPerf) :
    (adjustStats r).total = r.total := by
  unfold adjustStats; split <;> rfl

theorem pushedRecord_len_le (r : SignalPerf) (sp ao v : String) (hc oc cm : Bool)
    (es : String) (h : r.recentAccuracy.length ≤ r.total) :
    (pushedRecord r sp ao v hc oc cm es).recentAccuracy.length ≤
      (pushedRecord r sp ao v hc oc cm es).total := by
  unfold pushedRecord
  dsimp only
  split <;> split <;>
    simp only [List.length_tail, List.length_append, List.length_singleton] <;>
    omega

/-- Once the observation thresholds are met and the recent accuracy is below
the probation threshold, `adjustStats` switches probation on. -/
theorem adjustStats_probation (r : SignalPerf)
    (hlen : PROBATION_MIN_OBSERVATIONS ≤ r.recentAccuracy.length)
    (htot : MIN_OBSERVATIONS_FOR_ADJUST ≤ r.total)
    (hacc : r.recentAccuracy.sum / (r.recentAccuracy.length : ℚ) <
      PROBATION_THRESHOLD_ACCURACY) :
    (adjustStats r).isOnProbation = true := by
  unfold adjustStats
  rw [if_pos ⟨htot, by
    simp only [PERFORMANCE_WINDOW]
    simp only [PROBATION_MIN_OBSERVATIONS] at hlen
    omega⟩]
  dsimp only
  rw [if_pos ⟨hlen, hacc⟩]

/-- Claim C4 (amended): (i) after a performance update whose post-state FIFO
holds at least `PROBATION_MIN_OBSERVATIONS = 15` entries with mean accuracy
below `PROBATION_THRESHOLD_ACCURACY = 0.40`, the record is on probation;
(ii) when `getDynamicWeightAdjustment` runs on a record that is on probation
after the call's own decay step, with nonnegative base weight, the returned
weight never exceeds `max(PROBATION_WEIGHT_CAP × baseWeight,
MIN_ABSOLUTE_WEIGHT)`. -/
theorem C4_probation_amended :
    (∀ (r : SignalPerf) (sp ao : String) (pf : ℤ) (v : String) (hc oc cm : Bool)
      (es : String),
      r.recentAccuracy.length ≤ r.total →
      (r.lastActivePeriod ≠ some pf ∨ r.total = 0) →
      PROBATION_MIN_OBSERVATIONS ≤
        (updateOneSignal (some r) sp ao pf v hc oc cm es).recentAccuracy.length →
      (updateOneSignal (some r) sp ao pf v hc oc cm es).recentAccuracy.sum /
          ((updateOneSignal (some r) sp ao pf v hc oc cm es).recentAccuracy.length : ℚ) <
        PROBATION_THRESHOLD_ACCURACY →
      (updateOneSignal (some r) sp ao pf v hc oc cm es).isOnProbation = true) ∧
    (∀ (r : SignalPerf) (bw : ℚ) (pf : ℤ) (v : String) (shl : ℕ),
      0 ≤ bw →
      (getDynamicWeightAdjustment (some r) bw pf v shl).record.isOnProbation = true →
      (getDynamicWeightAdjustment (some r) bw pf v shl).weight ≤
        max (PROBATION_WEIGHT_CAP * bw) MIN_ABSOLUTE_WEIGHT) := by
  constructor
  · intro r sp ao pf v hc oc cm es hlen hguard hmin hacc
    have hguardE : (ensureVolBucket r v).lastActivePeriod ≠ some pf ∨
        (ensureVolBucket r v).total = 0 := by
      rw [ensureVolBucket_lastActivePeriod, ensureVolBucket_total]
      exact hguard
    have heq : updateOneSignal (some r) sp ao pf v hc oc cm es =
        { adjustStats (pushedRecord (ensureVolBucket r v) sp ao v hc oc cm es) with
          lastActivePeriod := some pf, lastUpdatePeriod := some pf } := by
      unfold updateOneSignal
      dsimp only [Option.getD]
      rw [if_pos hguardE]
    rw [heq] at hmin hacc ⊢
    dsimp only at hmin hacc ⊢
    rw [adjustStats_recentAccuracy] at hmin hacc
    have hlenP := pushedRecord_len_le (ensureVolBucket r v) sp ao v hc oc cm es
      (by rw [ensureVolBucket_recentAccuracy, ensureVolBucket_total]; exact hlen)
    refine adjustStats_probation _ hmin ?_ hacc
    simp only [MIN_OBSERVATIONS_FOR_ADJUST]
    simp only [PROBATION_MIN_OBSERVATIONS] at hmin
    omega
  · intro r bw pf v shl hbw hprob
    unfold getDynamicWeightAdjustment at hprob ⊢
    dsimp only at hprob ⊢
    rw [if_pos hprob]
    refine max_le_max ?_ le_rfl
    rw [mul_comm]
    exact mul_le_mul_of_nonneg_right (min_le_right _ _) hbw

/-- A record on probation whose combined factor is tiny and which was already
touched this period (so no decay runs). -/
def probationPerfA : SignalPerf :=
  { initSignalPerf with
    isOnProbation := true,
    currentAdjustmentFactor := 1/20,
    alphaFactor := 2/5,
    longTermImportanceScore := 0,
    lastUpdatePeriod := some 100 }

/-- A record on probation with 15 straight misses, inactive for more than
`INACTIVITY_PERIOD_FOR_DECAY` periods. -/
def probationPerfB : SignalPerf :=
  { initSignalPerf with
    isOnProbation := true,
    total := 15,
    recentAccuracy := [0, 0, 0, 0, 0, 0, 0, 0, 0, 0, 0, 0, 0, 0, 0],
    lastUpdatePeriod := some 0,
    lastActivePeriod := some 0 }

/-- Claim C4 counterexample, refuting the claim as stated at concrete inputs:
(a) for a record on probation and base weight 1/1000, the returned weight is
`MIN_ABSOLUTE_WEIGHT = 3/10000`, which exceeds `PROBATION_WEIGHT_CAP ×
baseWeight = 1/10000` — the absolute-weight floor overrides the probation
cap; (b) a record on probation with mean recent accuracy 0 (far below the
0.55 recovery threshold) exits probation through the inactivity-decay path
of `getDynamicWeightAdjustment`, so probation does not exit only via
accuracy recovery. -/
theorem C4_counterexample :
    ((getDynamicWeightAdjustment (some probationPerfA) (1/1000) 100 "MEDIUM" 5).record.isOnProbation
        = true ∧
      PROBATION_WEIGHT_CAP * (1/1000) <
        (getDynamicWeightAdjustment (some probationPerfA) (1/1000) 100 "MEDIUM" 5).weight) ∧
    ((getDynamicWeightAdjustment (some probationPerfB) (1/10) 100 "MEDIUM" 5).record.isOnProbation
        = false ∧
      probationPerfB.recentAccuracy.sum / (probationPerfB.recentAccuracy.length : ℚ) <
        PROBATION_THRESHOLD_ACCURACY) := by
  refine ⟨⟨?_, ?_⟩, ⟨?_, ?_⟩⟩
  · simp [getDynamicWeightAdjustment, probationPerfA, initSignalPerf, List.lookup]
  · simp [getDynamicWeightAdjustment, probationPerfA, initSignalPerf, List.lookup,
      PROBATION_WEIGHT_CAP, MIN_ABSOLUTE_WEIGHT, min_def, max_def]
    norm_num
  · simp [getDynamicWeightAdjustment, probationPerfB, initSignalPerf, List.lookup,
      INACTIVITY_PERIOD_FOR_DECAY, decayedFactor, DECAY_RATE]
  · norm_num [probationPerfB, initSignalPerf, PROBATION_THRESHOLD_ACCURACY]

/-- A record one observation short of the probation window, with all misses. -/
def preProbationPerf : SignalPerf :=
  { initSignalPerf with
    total := 14,
    recentAccuracy := [0, 0, 0, 0, 0, 0, 0, 0, 0, 0, 0, 0, 0, 0] }

theorem C4_witness :
    (preProbationPerf.recentAccuracy.length ≤ preProbationPerf.total ∧
      (preProbationPerf.lastActivePeriod ≠ some 1 ∨ preProbationPerf.total = 0) ∧
      PROBATION_MIN_OBSERVATIONS ≤
        (updateOneSignal (some preProbationPerf) "BIG" "SMALL" 1 "MEDIUM" false false false
          "STABLE_MODERATE").recentAccuracy.length ∧
      (updateOneSignal (some preProbationPerf) "BIG" "SMALL" 1 "MEDIUM" false false false
          "STABLE_MODERATE").recentAccuracy.sum /
        (((updateOneSignal (some preProbationPerf) "BIG" "SMALL" 1 "MEDIUM" false false false
          "STABLE_MODERATE").recentAccuracy.length : ℚ)) < PROBATION_THRESHOLD_ACCURACY) ∧
    (updateOneSignal (some preProbationPerf) "BIG" "SMALL" 1 "MEDIUM" false false false
        "STABLE_MODERATE").isOnProbation = true ∧
    (0 ≤ (1/1000 : ℚ) ∧
      (getDynamicWeightAdjustment (some probationPerfA) (1/1000) 100 "MEDIUM" 5).record.isOnProbation
        = true) ∧
    (getDynamicWeightAdjustment (some probationPerfA) (1/1000) 100 "MEDIUM" 5).weight ≤
      max (PROBATION_WEIGHT_CAP * (1/1000)) MIN_ABSOLUTE_WEIGHT := by
  have hra : (updateOneSignal (some preProbationPerf) "BIG" "SMALL" 1 "MEDIUM" false false
      false "STABLE_MODERATE").recentAccuracy =
      [(0 : ℚ), 0, 0, 0, 0, 0, 0, 0, 0, 0, 0, 0, 0, 0, 0] := by
    simp [updateOneSignal, ensureVolBucket, pushedRecord, adjustStats_recentAccuracy,
      preProbationPerf, initSignalPerf, PERFORMANCE_WINDOW, List.lookup]
  have hprobA : (getDynamicWeightAdjustment (some probationPerfA) (1/1000) 100 "MEDIUM"
      5).record.isOnProbation = true := by
    simp [getDynamicWeightAdjustment, probationPerfA, initSignalPerf, List.lookup]
  refine ⟨⟨by decide, by decide, ?_, ?_⟩, ?_, ⟨by norm_num, hprobA⟩, ?_⟩
  · rw [hra]; norm_num [PROBATION_MIN_OBSERVATIONS]
  · rw [hra]; norm_num [PROBATION_THRESHOLD_ACCURACY]
  · exact C4_probation_amended.1 preProbationPerf "BIG" "SMALL" 1 "MEDIUM" false false false
      "STABLE_MODERATE" (by decide) (by decide)
      (by rw [hra]; norm_num [PROBATION_MIN_OBSERVATIONS])
      (by rw [hra]; norm_num [PROBATION_THRESHOLD_ACCURACY])
  · exact C4_probation_amended.2 probationPerfA (1/1000) 100 "MEDIUM" 5 (by norm_num) hprobA

/-! ### Concept drift detector (predictionLogic.js lines 1384, 1557-1581) -/

/-- The DDM-style drift detector singleton.  `p_min` and `s_min` are set to
`Infinity` together (initialisation and the DRIFT reset), so the pair is
modelled as `mins : Option (ℚ × ℚ)` with `none` standing for the infinite
sentinel.  `p_i` is created by the first call in JavaScript (it is read only
when `n > 1`); the model carries it from the start. -/
structure DriftDetector where
  mins : Option (ℚ × ℚ)
  n : ℕ
  p_i : ℚ
  warning_level : ℚ
  drift_level : ℚ
deriving DecidableEq

/-- The initial `driftDetector` object (line 1384). -/
def driftDetectorInit : DriftDetector :=
  { mins := none, n := 0, p_i := 0, warning_level := 2, drift_level := 3 }

/-- The minimum-tracking and classification steps of `detectConceptDrift`
(lines 1565-1580), over the already-computed incremental statistics `p_i`
and `s_i`.  A finite `p_i + s_i` always compares below the infinite
sentinel, so after the update the tracked minimum is always finite; on
DRIFT the minima revert to the sentinel and `n` restarts at 1. -/
def driftClassify (d : DriftDetector) (n : ℕ) (p_i s_i : ℚ) :
    String × DriftDetector :=
  let mins :=
    match d.mins with
    | none => (p_i, s_i)
    | some (pm, sm) => if p_i + s_i < pm + sm then (p_i, s_i) else (pm, sm)
  if mins.1 + d.drift_level * mins.2 < p_i + s_i then
    ("DRIFT", { d with mins := none, n := 1, p_i := p_i })
  else if mins.1 + d.warning_level * mins.2 < p_i + s_i then
    ("WARNING", { d with mins := some mins, n := n, p_i := p_i })
  else
    ("STABLE", { d with mins := some mins, n := n, p_i := p_i })

/-- `detectConceptDrift` (lines 1557-1581), parameterised by the square-root
primitive.  Returns the classification string together with the mutated
detector state. -/
def detectConceptDrift (sqrtFn : ℚ → ℚ) (d : DriftDetector) (isCorrect : Bool) :
    String × DriftDetector :=
  let n := d.n + 1
  let errorRate : ℚ := if isCorrect then 0 else 1
  let prev : ℚ := if 1 < n then d.p_i else 0
  let p_i := prev + (errorRate - prev) / (n : ℚ)
  let s_i := sqrtFn (p_i * (1 - p_i) / (n : ℚ))
  driftClassify d n p_i s_i

theorem driftClassify_drift (d : DriftDetector) (n : ℕ) (p s : ℚ)
    (h : (driftClassify d n p s).1 = "DRIFT") :
    (driftClassify d n p s).2.mins = none ∧ (driftClassify d n p s).2.n = 1 := by
  unfold driftClassify at h ⊢
  dsimp only at h ⊢
  split at h <;> rename_i hcond
  · rw [if_pos hcond]
    exact ⟨rfl, rfl⟩
  · rw [if_neg hcond]
    split at h <;> simp_all

theorem driftClassify_stable (d : DriftDetector) (n : ℕ) (p s : ℚ)
    (hmins : d.mins = none) (hw : d.warning_level = 2) (hd : d.drift_level = 3)
    (hs0 : 0 ≤ s) : (driftClassify d n p s).1 = "STABLE" := by
  unfold driftClassify
  rw [hmins, hw, hd]
  dsimp only
  rw [if_neg (by linarith), if_neg (by linarith)]

/-- Claim C5: whenever `detectConceptDrift` classifies DRIFT, the returned
state has the minima back at the infinite sentinel and the sample count
restarted at 1; and from any such reset state (with the configured
`warning_level = 2`, `drift_level = 3`), a single subsequent correct result
is classified STABLE — the detector does not stay latched in DRIFT. -/
theorem C5_drift_reset (sqrtFn : ℚ → ℚ) (hs : ∀ x, 0 ≤ sqrtFn x) :
    (∀ (d : DriftDetector) (b : Bool),
      (detectConceptDrift sqrtFn d b).1 = "DRIFT" →
      (detectConceptDrift sqrtFn d b).2.mins = none ∧
      (detectConceptDrift sqrtFn d b).2.n = 1) ∧
    (∀ d : DriftDetector, d.mins = none → d.warning_level = 2 → d.drift_level = 3 →
      (detectConceptDrift sqrtFn d true).1 = "STABLE") := by
  constructor
  · intro d b h
    unfold detectConceptDrift at h ⊢
    exact driftClassify_drift _ _ _ _ h
  · intro d hmins hw hd
    unfold detectConceptDrift
    exact driftClassify_stable _ _ _ _ hmins hw hd (hs _)

/-- A detector state one incorrect result away from DRIFT. -/
def driftPerfA : DriftDetector :=
  { mins := some (0, 0), n := 1, p_i := 1, warning_level := 2, drift_level := 3 }

/-- A freshly reset detector state (minima at the infinite sentinel). -/
def driftPerfB : DriftDetector :=
  { mins := none, n := 1, p_i := 1, warning_level := 2, drift_level := 3 }

theorem C5_witness :
    (∀ x : ℚ, 0 ≤ (fun _ : ℚ => (0 : ℚ)) x) ∧
    (detectConceptDrift (fun _ => 0) driftPerfA false).1 = "DRIFT" ∧
    ((detectConceptDrift (fun _ => 0) driftPerfA false).2.mins = none ∧
      (detectConceptDrift (fun _ => 0) driftPerfA false).2.n = 1) ∧
    (driftPerfB.mins = none ∧ driftPerfB.warning_level = 2 ∧ driftPerfB.drift_level = 3) ∧
    (detectConceptDrift (fun _ => 0) driftPerfB true).1 = "STABLE" := by
  have hdrift : (detectConceptDrift (fun _ => (0 : ℚ)) driftPerfA false).1 = "DRIFT" := by
    norm_num [detectConceptDrift, driftClassify, driftPerfA]
  exact ⟨fun x => le_refl 0, hdrift,
    (C5_drift_reset (fun _ => 0) (fun x => le_refl 0)).1 driftPerfA false hdrift,
    ⟨rfl, rfl, rfl⟩,
    (C5_drift_reset (fun _ => 0) (fun x => le_refl 0)).2 driftPerfB rfl rfl rfl⟩

/-! ### Trend stability (predictionLogic.js lines 111-118, 669-681, 1231-1275) -/

/-- A history record as consumed by the stability and fusion code: `actual`
and `actualNumber` may be numbers, `null` or absent, `status` is a free
string (`"Win"`/`"Loss"` mark resolved records). -/
structure HistoryRecord where
  period : String
  actual : JSVal
  actualNumber : JSVal
  status : String
deriving DecidableEq

/-- `calculateStdDev` (lines 111-118): population standard deviation of the
first `period` elements, via the `sqrtFn` primitive. -/
def calculateStdDev (sqrtFn : ℚ → ℚ) (data : List ℚ) (period : ℤ) : Option ℚ :=
  if (data.length : ℤ) < period ∨ period ≤ 0 then none
  else
    let relevantData := data.take period.toNat
    if relevantData.length < 2 then none
    else
      let mean := relevantData.sum / (relevantData.length : ℚ)
      let variance := (relevantData.map (fun v => (v - mean) ^ 2)).sum /
        (relevantData.length : ℚ)
      some (sqrtFn variance)

/-- `calculateEntropyForSignal` (lines 669-681): base-2 Shannon entropy of
the BIG/SMALL distribution over the first `windowSize` outcomes, normalised
by `log2 2`.  Every call site feeds outcomes produced by
`getBigSmallFromNumber`, so only the `BIG` and `SMALL` keys of the counts
object ever exist. -/
def calculateEntropyForSignal (log2Fn : ℚ → ℚ) (outcomes : List String)
    (windowSize : ℕ) : Option ℚ :=
  if outcomes.length < windowSize then none
  else
    let window := outcomes.take windowSize
    let bigCount := (window.filter (fun o => o == "BIG")).length
    let smallCount := (window.filter (fun o => o == "SMALL")).length
    let totalValidOutcomes := bigCount + smallCount
    if totalValidOutcomes = 0 then some 1
    else
      let pB : ℚ := (bigCount : ℚ) / (totalValidOutcomes : ℚ)
      let pS : ℚ := (smallCount : ℚ) / (totalValidOutcomes : ℚ)
      let entropy : ℚ :=
        (if 0 < bigCount then -(pB * log2Fn pB) else 0) +
        (if 0 < smallCount then -(pS * log2Fn pS) else 0)
      some (entropy / log2Fn 2)

/-- The alternation count of `analyzeTrendStability` (lines 1266-1269):
adjacent pairs with differing outcomes. -/
def countAlternations : List String → ℕ
  | a :: b :: rest => (if a ≠ b then 1 else 0) + countAlternations (b :: rest)
  | _ => 0

/-- Result of `analyzeTrendStability`; the numeric `details` diagnostic
string is omitted from the embedding (none of its consumers branch on it). -/
structure StabilityResult where
  isStable : Bool
  reason : String
  dominance : String
deriving DecidableEq

/-- The confirmed-record filter of `analyzeTrendStability` (line 1235). -/
def isResolvedRecord (p : HistoryRecord) : Bool :=
  (p.status == "Win" || p.status == "Loss") &&
    !(p.actual == JSVal.undef) && !(p.actual == JSVal.null)

/-- `analyzeTrendStability` (lines 1231-1275). -/
def analyzeTrendStability (sqrtFn log2Fn : ℚ → ℚ) (history : List HistoryRecord) :
    StabilityResult :=
  if history.length < 25 then
    ⟨true, "Not enough data for stability check.", "NONE"⟩
  else
    let confirmedHistory := history.filter isResolvedRecord
    if confirmedHistory.length < 20 then
      ⟨true, "Not enough confirmed results.", "NONE"⟩
    else
      let recentResults :=
        ((confirmedHistory.take 20).map (fun p => getBigSmallFromNumber p.actual)).reduceOption
      if recentResults.length < 18 then
        ⟨true, "Not enough valid B/S for stability.", "NONE"⟩
      else
        let bigCount := (recentResults.filter (fun r => r == "BIG")).length
        let smallCount := (recentResults.filter (fun r => r == "SMALL")).length
        if 4/5 ≤ (bigCount : ℚ) / (recentResults.length : ℚ) then
          ⟨false, "Unstable: Extreme Outcome Dominance", "BIG_DOMINANCE"⟩
        else if 4/5 ≤ (smallCount : ℚ) / (recentResults.length : ℚ) then
          ⟨false, "Unstable: Extreme Outcome Dominance", "SMALL_DOMINANCE"⟩
        else
          let entropy := calculateEntropyForSignal log2Fn recentResults recentResults.length
          let lowEntropy : Bool :=
            match entropy with
            | some e => decide (e < 9/20)
            | none => false
          if lowEntropy then
            ⟨false, "Unstable: Very Low Entropy (Highly Predictable/Stuck)", "NONE"⟩
          else
            let actualNumbersRecent : List ℚ :=
              ((confirmedHistory.take 15).map
                (fun p => parseIntJS (jsOr p.actualNumber p.actual))).filterMap
                (fun pn => match pn with | .val n => some ((n : ℚ)) | .nan => none)
            let numericallyVolatile : Bool :=
              if 10 ≤ actualNumbersRecent.length then
                match calculateStdDev sqrtFn actualNumbersRecent
                    (actualNumbersRecent.length : ℤ) with
                | some s => decide (33/10 < s)
                | none => false
              else false
            if numericallyVolatile then
              ⟨false, "Unstable: High Numerical Volatility", "NONE"⟩
            else
              let alternations := countAlternations recentResults
              if 3/4 < (alternations : ℚ) / (recentResults.length : ℚ) then
                ⟨false, "Unstable: Excessive Choppiness", "NONE"⟩
              else
                ⟨true, "Trend appears stable.", "NONE"⟩

/-- A resolved record with outcome 5 (BIG). -/
def bigWinRecord : HistoryRecord :=
  { period := "p", actual := .int 5, actualNumber := .int 5, status := "Win" }

/-- A resolved record with outcome 4 (SMALL). -/
def smallWinRecord : HistoryRecord :=
  { period := "p", actual := .int 4, actualNumber := .int 4, status := "Win" }

/-- 60 alternating BIG/SMALL resolved records, newest first. -/
def altHistory60 : List HistoryRecord :=
  [bigWinRecord, smallWinRecord, bigWinRecord, smallWinRecord,
   bigWinRecord, smallWinRecord, bigWinRecord, smallWinRecord,
   bigWinRecord, smallWinRecord, bigWinRecord, smallWinRecord,
   bigWinRecord, smallWinRecord, bigWinRecord, smallWinRecord,
   bigWinRecord, smallWinRecord, bigWinRecord, smallWinRecord,
   bigWinRecord, smallWinRecord, bigWinRecord, smallWinRecord,
   bigWinRecord, smallWinRecord, bigWinRecord, smallWinRecord,
   bigWinRecord, smallWinRecord, bigWinRecord, smallWinRecord,
   bigWinRecord, smallWinRecord, bigWinRecord, smallWinRecord,
   bigWinRecord, smallWinRecord, bigWinRecord, smallWinRecord,
   bigWinRecord, smallWinRecord, bigWinRecord, smallWinRecord,
   bigWinRecord, smallWinRecord, bigWinRecord, smallWinRecord,
   bigWinRecord, smallWinRecord, bigWinRecord, smallWinRecord,
   bigWinRecord, smallWinRecord, bigWinRecord, smallWinRecord,
   bigWinRecord, smallWinRecord, bigWinRecord, smallWinRecord]

/-- Claim C9: on 60 alternating BIG/SMALL resolved records,
`analyzeTrendStability` reports instability with the "Excessive Choppiness"
reason — the alternation rate over the 20 most recent resolved records
(19/20) exceeds 75%, while none of the earlier checks (dominance 50%,
entropy 1, numerical standard deviation below 3.3) fire. -/
theorem C9_alternating_choppiness (sqrtFn log2Fn : ℚ → ℚ)
    (hl1 : log2Fn (1/2) = -1) (hl2 : log2Fn 2 = 1)
    (hs : ∀ x y : ℚ, 0 ≤ y → x ≤ y * y → sqrtFn x ≤ y) :
    analyzeTrendStability sqrtFn log2Fn altHistory60 =
      ⟨false, "Unstable: Excessive Choppiness", "NONE"⟩ := by
  have hvar : ¬ ((33 : ℚ)/10 < sqrtFn (56/225)) :=
    not_lt.mpr (hs _ _ (by norm_num) (by norm_num))
  unfold analyzeTrendStability
  simp [isResolvedRecord, altHistory60, bigWinRecord, smallWinRecord,
    getBigSmallFromNumber, jsOr, jsTruthy, parseIntJS, countAlternations,
    calculateStdDev, calculateEntropyForSignal, List.reduceOption]
  norm_num [hl1, hl2, hvar]

/-- A concrete stand-in for `Math.log2` agreeing with it at the two points
the alternating-history run evaluates. -/
def log2Stub : ℚ → ℚ := fun x => if x = 1/2 then -1 else if x = 2 then 1 else 0

/-- A concrete stand-in for `Math.sqrt` satisfying the upper-bound law. -/
def sqrtStub : ℚ → ℚ := fun _ => 0

theorem C9_witness :
    (log2Stub (1/2) = -1 ∧ log2Stub 2 = 1 ∧
      ∀ x y : ℚ, 0 ≤ y → x ≤ y * y → sqrtStub x ≤ y) ∧
    analyzeTrendStability sqrtStub log2Stub altHistory60 =
      ⟨false, "Unstable: Excessive Choppiness", "NONE"⟩ := by
  have h1 : log2Stub (1/2) = -1 := by norm_num [log2Stub]
  have h2 : log2Stub 2 = 1 := by norm_num [log2Stub]
  have h3 : ∀ x y : ℚ, 0 ≤ y → x ≤ y * y → sqrtStub x ≤ y := fun x y hy _ => by
    simpa [sqrtStub] using hy
  exact ⟨⟨h1, h2, h3⟩, C9_alternating_choppiness sqrtStub log2Stub h1 h2 h3⟩

/-! ### Fusion engine and cycle orchestration (predictionLogic.js lines
2077-2285)

`ultraAIPredict` computes its context analyses (trend context, entropy
state, drift, regime aggression, the per-generator signal loop) before the
code embedded here; those results enter `ultraAIPredictFusion` as the
`FusionContext` fields and the `signals` list, so the theorems below hold
for every possible outcome of those analyses.  The function returns the
pair (returned prediction object, contents of the `sharedStatsPayload`
object after the call). -/

/-- A signal as it flows through the fusion stage (`adjustedWeight` attached
at line 2163). -/
structure Signal where
  source : String
  prediction : String
  weight : ℚ
  adjustedWeight : ℚ
deriving DecidableEq

/-- One entry of `lastPredictionSignals` (line 2269). -/
structure StateSignal where
  source : String
  prediction : String
  weight : ℚ
  isOnProbation : Bool
deriving DecidableEq

/-- The aurochs regime-discovery state (line 1606). -/
structure AurochsState where
  choppyCount : ℕ
deriving DecidableEq

/-- The persisted engine-state payload (`sharedStatsPayload`): the eleven
fields written by the normal path (lines 2264-2276) plus the fields the
orchestrator reads from the previous cycle. -/
structure SharedStats where
  lastPredictedOutcome : Option String
  lastFinalConfidence : Option ℚ
  lastConfidenceLevel : Option ℕ
  lastMacroRegime : Option String
  lastPredictionSignals : Option (List StateSignal)
  lastConcentrationModeEngaged : Option Bool
  lastMarketEntropyState : Option String
  lastVolatilityRegime : Option String
  periodFull : Option ℤ
  aurochsState : Option AurochsState
  longTermGlobalAccuracy : Option ℚ
  lastActualOutcome : JSVal
  lastPeriodFull : Option ℤ
deriving DecidableEq

/-- One side of the `predictions` object. -/
structure SideConfidence where
  confidence : ℚ
  logic : String
deriving DecidableEq

/-- One entry of `contributingSignals` (line 2259); the `toFixed(5)` string
formatting of the weight is abstracted to the rational value. -/
structure ContribSignal where
  source : String
  prediction : String
  weight : ℚ
deriving DecidableEq

/-- The prediction object returned by `ultraAIPredict`; the `overallLogic`
diagnostic string is omitted (no consumer branches on it). -/
structure PredictionOutput where
  bigPrediction : SideConfidence
  smallPrediction : SideConfidence
  finalDecision : String
  finalConfidence : ℚ
  confidenceLevel : ℕ
  isForcedPrediction : Bool
  source : String
  contributingSignals : Option (List ContribSignal)
deriving DecidableEq

/-- `sanitizeForFirebase` (lines 25-43) maps `undefined` values to `null`;
every field of the embedded `PredictionOutput` is a defined value, so on
this type the traversal is the identity. -/
def sanitizeForFirebase (p : PredictionOutput) : PredictionOutput := p

/-- The confirmed-history filter of `ultraAIPredict` (line 2077):
`p.actual !== null && p.actualNumber !== undefined` (an `undefined`
`actual` passes the first test). -/
def isConfirmedRecord (p : HistoryRecord) : Bool :=
  !(p.actual == JSVal.null) && !(p.actualNumber == JSVal.undef)

/-- The valid-signal filter (line 2168): a truthy prediction and an adjusted
weight above `MIN_ABSOLUTE_WEIGHT`. -/
def isValidSignal (s : Signal) : Bool :=
  !(s.prediction == "") && decide (MIN_ABSOLUTE_WEIGHT < s.adjustedWeight)

/-- The forced 50/50 output built by both fallback branches (lines 2081-2086
and 2173-2178); `rand` is the `Math.random()` draw deciding the direction. -/
def forcedRandomOutput (rand : ℚ) (src : String) : PredictionOutput :=
  { bigPrediction := ⟨1/2, "ForcedRandom"⟩,
    smallPrediction := ⟨1/2, "ForcedRandom"⟩,
    finalDecision := if 1/2 < rand then "BIG" else "SMALL",
    finalConfidence := 1/2, confidenceLevel := 1, isForcedPrediction := true,
    source := src, contributingSignals := none }

/-- Insertion step of the descending-weight sort of `contributingSignals`. -/
def insertByWeightDesc (c : ContribSignal) : List ContribSignal → List ContribSignal
  | [] => [c]
  | x :: xs => if x.weight < c.weight then c :: x :: xs else x :: insertByWeightDesc c xs

/-- The `sort((a,b) => b.weight - a.weight)` of line 2259. -/
def sortByWeightDesc : List ContribSignal → List ContribSignal
  | [] => []
  | x :: xs => insertByWeightDesc x (sortByWeightDesc xs)

/-- The context computed by `ultraAIPredict` before the fusion stage: trend
and entropy analyses, regime data, reflexive-correction and drift flags, the
auxiliary scores computed from the valid signals, and the `Math.random()`
draws of the four random sites. -/
structure FusionContext where
  currentMacroRegime : String
  concentrationModeEngaged : Bool
  marketEntropyState : String
  volatility : String
  currentPeriodFull : ℤ
  updatedAurochsState : AurochsState
  longTermGlobalAccuracy : ℚ
  isReflexiveCorrection : Bool
  driftState : String
  primeTimeConfidence : ℚ
  realTimeFactor : ℚ
  bullTrendProb : ℚ
  bearTrendProb : ℚ
  consensusFactor : ℚ
  signalConsistencyScore : ℚ
  pathConfluenceScore : ℚ
  uncertaintyScore : ℚ
  confidenceModelLevel : ℕ
  randInsufficient : ℚ
  randNoValid : ℚ
  randTieBreak : ℚ
  randForced : ℚ
deriving DecidableEq

/-- Lines 2077-2285 of `ultraAIPredict`: the minimum-history short-circuit,
the valid-signal short-circuit, and the scoring / calibration / forcing
pipeline of the normal path.  In both fallback branches the source builds a
local `newState` object from the stats payload but never assigns it back
(the `Object.assign(sharedStatsPayload, newState)` of line 2280 exists only
on the normal path), so the payload component of the result is returned
unchanged there. -/
def ultraAIPredictFusion (ctx : FusionContext) (currentSharedHistory : List HistoryRecord)
    (signals : List Signal) (sharedStatsPayload : SharedStats) :
    PredictionOutput × SharedStats :=
  let confirmedHistory := currentSharedHistory.filter isConfirmedRecord
  if confirmedHistory.length < 52 then
    (sanitizeForFirebase (forcedRandomOutput ctx.randInsufficient "InsufficientHistory"),
      sharedStatsPayload)
  else
    let validSignals := signals.filter isValidSignal
    if validSignals.length = 0 then
      (sanitizeForFirebase (forcedRandomOutput ctx.randNoValid "NoValidSignals"),
        sharedStatsPayload)
    else
      let bigScore0 := ((validSignals.filter (fun s => s.prediction == "BIG")).map
        Signal.adjustedWeight).sum
      let smallScore0 := ((validSignals.filter (fun s => s.prediction == "SMALL")).map
        Signal.adjustedWeight).sum
      let bigScore1 := bigScore0 * (1 + ctx.bullTrendProb - ctx.bearTrendProb)
      let smallScore1 := smallScore0 * (1 + ctx.bearTrendProb - ctx.bullTrendProb)
      let bigScore := bigScore1 * ctx.consensusFactor
      let smallScore := smallScore1 * (2 - ctx.consensusFactor)
      let totalScore := bigScore + smallScore
      let finalDecision :=
        if 0 < totalScore then (if smallScore ≤ bigScore then "BIG" else "SMALL")
        else (if 1/2 < ctx.randTieBreak then "BIG" else "SMALL")
      let finalConfidence0 : ℚ :=
        if 0 < totalScore then max bigScore smallScore / totalScore else 1/2
      let finalConfidence1 :=
        1/2 + (finalConfidence0 - 1/2) * ctx.primeTimeConfidence * ctx.realTimeFactor
      let uncertaintyFactor := 1 - min 1 (ctx.uncertaintyScore / 120)
      let finalConfidence2 := 1/2 + (finalConfidence1 - 1/2) * uncertaintyFactor
      let pqs0 := 1/2 + (ctx.signalConsistencyScore - 1/2) * (2/5) +
        ctx.pathConfluenceScore * (6/5)
      let pqs := max (1/100) (min (99/100) (pqs0 - ctx.uncertaintyScore / 500))
      let uncertaintyThreshold : ℚ :=
        if ctx.isReflexiveCorrection || ctx.driftState == "DRIFT" then 65 else 95
      let isForced := uncertaintyThreshold ≤ ctx.uncertaintyScore ∨ pqs < 1/5
      let confidenceLevel := if isForced then 1 else ctx.confidenceModelLevel
      let finalConfidence :=
        if isForced then 1/2 + (ctx.randForced - 1/2) * (1/50) else finalConfidence2
      let bigDisplayConfidence :=
        if finalDecision == "BIG" then finalConfidence else 1 - finalConfidence
      let smallDisplayConfidence :=
        if finalDecision == "SMALL" then finalConfidence else 1 - finalConfidence
      let predictionOutput : PredictionOutput :=
        { bigPrediction := ⟨max (1/1000) (min (999/1000) bigDisplayConfidence), "EnsembleV44"⟩,
          smallPrediction := ⟨max (1/1000) (min (999/1000) smallDisplayConfidence), "EnsembleV44"⟩,
          finalDecision := finalDecision,
          finalConfidence := finalConfidence,
          confidenceLevel := confidenceLevel,
          isForcedPrediction := isForced,
          source := "SimulationFusionV44.3",
          contributingSignals := some ((sortByWeightDesc (validSignals.map
            (fun s => ⟨s.source, s.prediction, s.adjustedWeight⟩))).take 15) }
      let newStatePayload : SharedStats :=
        { sharedStatsPayload with
          lastPredictedOutcome := some finalDecision,
          lastFinalConfidence := some finalConfidence,
          lastConfidenceLevel := some confidenceLevel,
          lastMacroRegime := some ctx.currentMacroRegime,
          lastPredictionSignals := some (validSignals.map
            (fun s => ⟨s.source, s.prediction, s.adjustedWeight, false⟩)),
          lastConcentrationModeEngaged := some ctx.concentrationModeEngaged,
          lastMarketEntropyState := some ctx.marketEntropyState,
          lastVolatilityRegime := some ctx.volatility,
          periodFull := some ctx.currentPeriodFull,
          aurochsState := some ctx.updatedAurochsState,
          longTermGlobalAccuracy := some ctx.longTermGlobalAccuracy }
      (sanitizeForFirebase predictionOutput, newStatePayload)

/-- Claim C2: whenever the fusion stage runs with fewer than 52 confirmed
history records, or with zero valid signals surviving weight adjustment, the
returned prediction object has `confidenceLevel = 1`,
`isForcedPrediction = true`, and `finalConfidence` (exactly 0.5) within
[0.48, 0.52]. -/
theorem C2_forced_fallback_shape (ctx : FusionContext) (hist : List HistoryRecord)
    (signals : List Signal) (payload : SharedStats)
    (h : (hist.filter isConfirmedRecord).length < 52 ∨
      (signals.filter isValidSignal).length = 0) :
    (ultraAIPredictFusion ctx hist signals payload).1.confidenceLevel = 1 ∧
    (ultraAIPredictFusion ctx hist signals payload).1.isForcedPrediction = true ∧
    12/25 ≤ (ultraAIPredictFusion ctx hist signals payload).1.finalConfidence ∧
    (ultraAIPredictFusion ctx hist signals payload).1.finalConfidence ≤ 13/25 := by
  unfold ultraAIPredictFusion
  dsimp only
  by_cases hlen : (hist.filter isConfirmedRecord).length < 52
  · rw [if_pos hlen]
    exact ⟨rfl, rfl, by norm_num [sanitizeForFirebase, forcedRandomOutput],
      by norm_num [sanitizeForFirebase, forcedRandomOutput]⟩
  · rw [if_neg hlen, if_pos (h.resolve_left hlen)]
    exact ⟨rfl, rfl, by norm_num [sanitizeForFirebase, forcedRandomOutput],
      by norm_num [sanitizeForFirebase, forcedRandomOutput]⟩

/-- Claim C3 (code evaluation at the failing input class): on both
short-circuit branches the stats payload handed back to the caller is
exactly the payload passed in — the locally built `newState` is discarded,
so none of the per-cycle fields (last predicted outcome, confidence, macro
regime, signal list, entropy state, volatility regime, period id, aurochs
state) is updated for the next cycle. -/
theorem C3_fallback_discards_state (ctx : FusionContext) (hist : List HistoryRecord)
    (signals : List Signal) (payload : SharedStats)
    (h : (hist.filter isConfirmedRecord).length < 52 ∨
      (signals.filter isValidSignal).length = 0) :
    (ultraAIPredictFusion ctx hist signals payload).2 = payload := by
  unfold ultraAIPredictFusion
  dsimp only
  by_cases hlen : (hist.filter isConfirmedRecord).length < 52
  · rw [if_pos hlen]
  · rw [if_neg hlen, if_pos (h.resolve_left hlen)]

/-- A concrete fusion context. -/
def sampleCtx : FusionContext :=
  { currentMacroRegime := "DEFAULT", concentrationModeEngaged := false,
    marketEntropyState := "STABLE_MODERATE", volatility := "MEDIUM",
    currentPeriodFull := 100, updatedAurochsState := ⟨0⟩,
    longTermGlobalAccuracy := 1/2, isReflexiveCorrection := false,
    driftState := "STABLE", primeTimeConfidence := 1, realTimeFactor := 1,
    bullTrendProb := 1/4, bearTrendProb := 1/4, consensusFactor := 1,
    signalConsistencyScore := 1/2, pathConfluenceScore := 0,
    uncertaintyScore := 0, confidenceModelLevel := 2,
    randInsufficient := 3/4, randNoValid := 3/4, randTieBreak := 3/4,
    randForced := 1/2 }

/-- A concrete prior-cycle payload with stale per-cycle fields. -/
def samplePayload : SharedStats :=
  { lastPredictedOutcome := some "BIG", lastFinalConfidence := some (9/10),
    lastConfidenceLevel := some 3, lastMacroRegime := some "RANGE_MED_VOL",
    lastPredictionSignals := some [], lastConcentrationModeEngaged := some false,
    lastMarketEntropyState := some "ORDERLY", lastVolatilityRegime := some "LOW",
    periodFull := some 7, aurochsState := some ⟨2⟩,
    longTermGlobalAccuracy := some (1/2), lastActualOutcome := .int 3,
    lastPeriodFull := some 6 }

theorem C2_witness :
    ((([] : List HistoryRecord).filter isConfirmedRecord).length < 52 ∨
      (([] : List Signal).filter isValidSignal).length = 0) ∧
    ((ultraAIPredictFusion sampleCtx [] [] samplePayload).1.confidenceLevel = 1 ∧
      (ultraAIPredictFusion sampleCtx [] [] samplePayload).1.isForcedPrediction = true ∧
      12/25 ≤ (ultraAIPredictFusion sampleCtx [] [] samplePayload).1.finalConfidence ∧
      (ultraAIPredictFusion sampleCtx [] [] samplePayload).1.finalConfidence ≤ 13/25) :=
  ⟨Or.inl (by decide),
    C2_forced_fallback_shape sampleCtx [] [] samplePayload (Or.inl (by decide))⟩

theorem C3_witness :
    ((([] : List HistoryRecord).filter isConfirmedRecord).length < 52 ∨
      (([] : List Signal).filter isValidSignal).length = 0) ∧
    (ultraAIPredictFusion sampleCtx [] [] samplePayload).2 = samplePayload :=
  ⟨Or.inl (by decide),
    C3_fallback_discards_state sampleCtx [] [] samplePayload (Or.inl (by decide))⟩

/-- Claim C10: on the normal (non-fallback) path the prediction object is
the only return value and carries no engine state — it is identical whatever
payload the caller passed — while the fully updated per-cycle state is
delivered solely through the mutated `sharedStatsPayload`: the eleven
`newState` fields are overwritten with the cycle's values (`Object.assign`
semantics) and every other payload field survives unchanged.  A caller that
does not retain and re-pass the mutated object therefore loses all
per-cycle state. -/
theorem C10_state_only_via_payload (ctx : FusionContext)
    (hist : List HistoryRecord) (signals : List Signal)
    (payload payloadAlt : SharedStats)
    (hlen : ¬ (hist.filter isConfirmedRecord).length < 52)
    (hvalid : ¬ (signals.filter isValidSignal).length = 0) :
    ((ultraAIPredictFusion ctx hist signals payload).2.lastActualOutcome =
        payload.lastActualOutcome ∧
      (ultraAIPredictFusion ctx hist signals payload).2.lastPeriodFull =
        payload.lastPeriodFull) ∧
    (ultraAIPredictFusion ctx hist signals payload).2.lastPredictedOutcome =
      some (ultraAIPredictFusion ctx hist signals payload).1.finalDecision ∧
    (ultraAIPredictFusion ctx hist signals payload).2.lastFinalConfidence =
      some (ultraAIPredictFusion ctx hist signals payload).1.finalConfidence ∧
    (ultraAIPredictFusion ctx hist signals payload).2.lastConfidenceLevel =
      some (ultraAIPredictFusion ctx hist signals payload).1.confidenceLevel ∧
    (ultraAIPredictFusion ctx hist signals payload).2.lastMacroRegime =
      some ctx.currentMacroRegime ∧
    (ultraAIPredictFusion ctx hist signals payload).2.lastPredictionSignals =
      some ((signals.filter isValidSignal).map
        (fun s => ⟨s.source, s.prediction, s.adjustedWeight, false⟩)) ∧
    (ultraAIPredictFusion ctx hist signals payload).2.lastConcentrationModeEngaged =
      some ctx.concentrationModeEngaged ∧
    (ultraAIPredictFusion ctx hist signals payload).2.lastMarketEntropyState =
      some ctx.marketEntropyState ∧
    (ultraAIPredictFusion ctx hist signals payload).2.lastVolatilityRegime =
      some ctx.volatility ∧
    (ultraAIPredictFusion ctx hist signals payload).2.periodFull =
      some ctx.currentPeriodFull ∧
    (ultraAIPredictFusion ctx hist signals payload).2.aurochsState =
      some ctx.updatedAurochsState ∧
    (ultraAIPredictFusion ctx hist signals payload).2.longTermGlobalAccuracy =
      some ctx.longTermGlobalAccuracy ∧
    (ultraAIPredictFusion ctx hist signals payloadAlt).1 =
      (ultraAIPredictFusion ctx hist signals payload).1 := by
  unfold ultraAIPredictFusion
  simp only [if_neg hlen, if_neg hvalid]
  refine ⟨⟨?_, ?_⟩, ?_, ?_, ?_, ?_, ?_, ?_, ?_, ?_, ?_, ?_, ?_, ?_⟩ <;> trivial

/-- 52 confirmed records. -/
def confirmedHistory52 : List HistoryRecord := List.replicate 52 bigWinRecord

/-- One valid signal. -/
def sampleSignals : List Signal :=
  [{ source := "TransitionSeeker", prediction := "BIG", weight := 1/10,
     adjustedWeight := 1/10 }]

theorem C10_witness :
    (¬ (confirmedHistory52.filter isConfirmedRecord).length < 52 ∧
      ¬ (sampleSignals.filter isValidSignal).length = 0) ∧
    (ultraAIPredictFusion sampleCtx confirmedHistory52 sampleSignals samplePayload).2.periodFull =
      some sampleCtx.currentPeriodFull ∧
    (ultraAIPredictFusion sampleCtx confirmedHistory52 sampleSignals samplePayload).2.lastActualOutcome =
      samplePayload.lastActualOutcome ∧
    (ultraAIPredictFusion sampleCtx confirmedHistory52 sampleSignals
        { samplePayload with lastActualOutcome := .int 8 }).1 =
      (ultraAIPredictFusion sampleCtx confirmedHistory52 sampleSignals samplePayload).1 := by
  have hsig : sampleSignals.filter isValidSignal = sampleSignals := by
    simp [sampleSignals, isValidSignal, MIN_ABSOLUTE_WEIGHT]
    norm_num
  have hlen : ¬ (confirmedHistory52.filter isConfirmedRecord).length < 52 := by decide
  have hvalid : ¬ (sampleSignals.filter isValidSignal).length = 0 := by
    rw [hsig]; decide
  have main := C10_state_only_via_payload sampleCtx confirmedHistory52 sampleSignals
    samplePayload { samplePayload with lastActualOutcome := .int 8 } hlen hvalid
  exact ⟨⟨hlen, hvalid⟩, main.2.2.2.2.2.2.2.2.2.1, main.1.1, main.2.2.2.2.2.2.2.2.2.2.2.2⟩

/-! ### Signal generators and the unbound `analyzeRSI` reference
(predictionLogic.js lines 968-1000, 2105-2127) -/

/-- A thrown JavaScript error. -/
inductive JsError where
  | referenceError : String → JsError
deriving DecidableEq

/-- The identifier `analyzeRSI` is called at lines 970 and 2110 of
predictionLogic.js, but no function of that name is defined anywhere in the
file (a definition exists only in an earlier snapshot of the module shipped
alongside).  Evaluating either call in Node.js therefore throws
`ReferenceError: analyzeRSI is not defined`; this embedding models that
evaluation. -/
def analyzeRSI (_history : List HistoryRecord) (_rsiPeriod : ℕ) (_baseWeight : ℚ)
    (_volatility : String) : Except JsError (Option Signal) :=
  .error (.referenceError "analyzeRSI")

/-- The double top/bottom fallback of `analyzeReversalPatterns`
(lines 984-998). -/
def reversalDoubles (history : List HistoryRecord) (baseWeight : ℚ) :
    Except JsError (Option Signal) :=
  if 5 ≤ history.length then
    let outcomes :=
      ((history.take 5).map (fun p => getBigSmallFromNumber p.actual)).reduceOption
    if outcomes.length = 5 then
      if outcomes = ["BIG", "SMALL", "BIG", "SMALL", "BIG"] then
        .ok (some ⟨"Reversal_DoubleTop", "SMALL", baseWeight * 1, 0⟩)
      else if outcomes = ["SMALL", "BIG", "SMALL", "BIG", "SMALL"] then
        .ok (some ⟨"Reversal_DoubleBottom", "BIG", baseWeight * 1, 0⟩)
      else .ok none
    else .ok none
  else .ok none

/-- The Bollinger/stochastic legs of `analyzeReversalPatterns`
(lines 975-982); the two sub-analysers are separately defined functions of
the module and enter as oracle inputs. -/
def reversalRest (bollingerSignal stochasticSignal : Option Signal)
    (history : List HistoryRecord) (baseWeight : ℚ) : Except JsError (Option Signal) :=
  match bollingerSignal with
  | some bs => .ok (some { bs with source := "Reversal_Bollinger" })
  | none =>
    match stochasticSignal with
    | some ss =>
      if (ss.prediction == "BIG" && decide (baseWeight * (4/5) < ss.weight)) ||
          (ss.prediction == "SMALL" && decide (baseWeight * (4/5) < ss.weight)) then
        .ok (some { ss with source := "Reversal_Stochastic" })
      else reversalDoubles history baseWeight
    | none => reversalDoubles history baseWeight

/-- `analyzeReversalPatterns` (lines 968-1000): its first statement evaluates
`analyzeRSI(history, 14, baseWeight * 1.2, volatility)`. -/
def analyzeReversalPatterns (bollingerSignal stochasticSignal : Option Signal)
    (history : List HistoryRecord) (baseWeight : ℚ) (volatility : String) :
    Except JsError (Option Signal) :=
  match analyzeRSI history 14 (baseWeight * (12/10)) volatility with
  | .error e => .error e
  | .ok rsiSignal =>
    match rsiSignal with
    | some rs =>
      if (rs.prediction == "BIG" && decide (baseWeight * (4/5) < rs.weight)) ||
          (rs.prediction == "SMALL" && decide (baseWeight * (4/5) < rs.weight)) then
        .ok (some { rs with source := "Reversal_RSI" })
      else reversalRest bollingerSignal stochasticSignal history baseWeight
    | none => reversalRest bollingerSignal stochasticSignal history baseWeight

/-- Claim C6 (code evaluation at the failing inputs): every invocation of
`analyzeReversalPatterns` — for any history, base weight and volatility —
throws `ReferenceError: analyzeRSI is not defined` at its first statement
instead of returning a signal or `null`; the same unbound identifier is
invoked directly by the `ultraAIPredict` roster entry of line 2110, so under
a regime whose profile activates all signal types the generator loop (which
has no try/catch) propagates the exception out of `ultraAIPredict`. -/
theorem C6_reversal_patterns_throws (bollingerSignal stochasticSignal : Option Signal)
    (history : List HistoryRecord) (baseWeight : ℚ) (volatility : String) :
    analyzeReversalPatterns bollingerSignal stochasticSignal history baseWeight volatility =
        .error (.referenceError "analyzeRSI") ∧
      analyzeRSI history 14 (8/100) volatility = .error (.referenceError "analyzeRSI") :=
  ⟨rfl, rfl⟩

end Spec2Proof
